import Mathlib

/-!
Shallow embedding of the storage / upload / retrieval layer of the
TryOnTech0/server_api repository, and proofs of the specified properties.

The embedding follows `src/controllers/3DModelController.js` (the 3-D model
controller and the intArray controller concatenated in that file),
`src/controllers/imageController.js`, and the OBJ-file controller draft in
`src/unnamed/part_002`.  JavaScript numbers are modelled by `JSNum`
(NaN, the two infinities, or an exact decimal value); strings that may be
`undefined` are modelled by `Option String`; the object-storage backend,
the filesystem and the non-deterministic inputs (timestamps, generated
ids) are supplied through an explicit `Env` record.

String primitives (`split`, `startsWith`, `includes`, …) are implemented
structurally over `List Char` so that every definition evaluates inside
the kernel; they mirror the single-character-separator semantics of the
JavaScript methods used by the source.
-/

namespace ServerApi

/-- Split a character list at every occurrence of the separator, keeping
empty segments, exactly like JavaScript `s.split(sep)` for a
single-character separator: `splitChar ' ' "a  b"` is `["a", "", "b"]`. -/
def splitChar (sep : Char) : List Char → List (List Char)
  | [] => [[]]
  | c :: cs =>
    let r := splitChar sep cs
    if c = sep then [] :: r else (c :: r.headD []) :: r.tail

/-- Does the first list start with the second (JavaScript `startsWith`)? -/
def startsWithList : List Char → List Char → Bool
  | _, [] => true
  | [], _ :: _ => false
  | c :: cs, p :: ps => c = p && startsWithList cs ps

/-- JavaScript `s.includes(pat)`: does `pat` occur as a substring? -/
def includesList (pat : List Char) : List Char → Bool
  | [] => pat.isEmpty
  | c :: cs => startsWithList (c :: cs) pat || includesList pat cs

/-- JavaScript `s.split(sep)` for a one-character separator. -/
def jsSplit (s : String) (sep : Char) : List String :=
  (splitChar sep s.toList).map String.mk

/-- JavaScript `s.startsWith(pat)`. -/
def jsStartsWith (s pat : String) : Bool :=
  startsWithList s.toList pat.toList

/-- JavaScript `s.includes(pat)`. -/
def jsIncludes (s pat : String) : Bool :=
  includesList pat.toList s.toList

/-- JavaScript `s.toLowerCase()` (ASCII, which is all the source needs). -/
def jsToLower (s : String) : String :=
  String.mk (s.toList.map Char.toLower)

/-- JavaScript `s.slice(n)` / `s.substring(n)` for a non-negative index. -/
def strDrop (s : String) (n : Nat) : String :=
  String.mk (s.toList.drop n)

/-- An exact decimal value `m / 10 ^ e`.  Every number the source computes
starts from a decimal literal and only passes through `Math.min`,
`Math.max`, `+`, `-` and halving, so this representation is exact, and
order comparisons agree with those on IEEE doubles (rounding to nearest
is monotone). -/
structure Dec10 where
  m : Int
  e : Nat
deriving DecidableEq

namespace Dec10

/-- The rational value represented. -/
def val (a : Dec10) : ℚ := (a.m : ℚ) / 10 ^ a.e

/-- Order on represented values, by cross-multiplication. -/
def le (a b : Dec10) : Bool := a.m * 10 ^ b.e ≤ b.m * 10 ^ a.e

/-- Equality of represented values, by cross-multiplication. -/
def eqv (a b : Dec10) : Bool := a.m * 10 ^ b.e = b.m * 10 ^ a.e

def neg (a : Dec10) : Dec10 := ⟨-a.m, a.e⟩

def add (a b : Dec10) : Dec10 := ⟨a.m * 10 ^ b.e + b.m * 10 ^ a.e, a.e + b.e⟩

/-- Halving: `m / 10^e / 2 = 5·m / 10^(e+1)`. -/
def half (a : Dec10) : Dec10 := ⟨5 * a.m, a.e + 1⟩

/-- Multiply by `10 ^ k` (decimal exponent shift up). -/
def shiftUp (a : Dec10) (k : Nat) : Dec10 := ⟨a.m * 10 ^ k, a.e⟩

/-- Divide by `10 ^ k` (decimal exponent shift down). -/
def shiftDown (a : Dec10) (k : Nat) : Dec10 := ⟨a.m, a.e + k⟩

end Dec10

/-- Model of a JavaScript number: NaN, +Infinity, -Infinity, or a finite
exact decimal value. -/
inductive JSNum where
  | nan
  | pinf
  | ninf
  | fin (v : Dec10)
deriving DecidableEq

namespace JSNum

/-- JavaScript `<=` on numbers: any comparison with NaN is false. -/
def le : JSNum → JSNum → Bool
  | .nan, _ => false
  | _, .nan => false
  | .ninf, _ => true
  | _, .pinf => true
  | .pinf, _ => false
  | _, .ninf => false
  | .fin a, .fin b => a.le b

/-- Value equality of two model numbers (NaN compared representationally,
used only to state properties, never by the embedded code). -/
def eqv : JSNum → JSNum → Bool
  | .nan, .nan => true
  | .pinf, .pinf => true
  | .ninf, .ninf => true
  | .fin a, .fin b => a.eqv b
  | _, _ => false

/-- JavaScript `Math.min` restricted to two arguments: NaN-propagating. -/
def jsMin (a b : JSNum) : JSNum :=
  if a = .nan ∨ b = .nan then .nan else if a.le b then a else b

/-- JavaScript `Math.max` restricted to two arguments: NaN-propagating. -/
def jsMax (a b : JSNum) : JSNum :=
  if a = .nan ∨ b = .nan then .nan else if a.le b then b else a

/-- JavaScript unary minus. -/
def neg : JSNum → JSNum
  | .nan => .nan
  | .pinf => .ninf
  | .ninf => .pinf
  | .fin a => .fin a.neg

/-- JavaScript `+` on numbers. -/
def add : JSNum → JSNum → JSNum
  | .nan, _ => .nan
  | _, .nan => .nan
  | .pinf, .ninf => .nan
  | .ninf, .pinf => .nan
  | .pinf, _ => .pinf
  | _, .pinf => .pinf
  | .ninf, _ => .ninf
  | _, .ninf => .ninf
  | .fin a, .fin b => .fin (a.add b)

/-- JavaScript `-` on numbers. -/
def sub (a b : JSNum) : JSNum := a.add b.neg

/-- JavaScript division by the literal 2 (used for the centre point). -/
def half : JSNum → JSNum
  | .nan => .nan
  | .pinf => .pinf
  | .ninf => .ninf
  | .fin a => .fin a.half

end JSNum

/-- Whitespace characters trimmed by JavaScript `Number(...)` coercion
(the ones that can occur in the line-split tokens of this code base). -/
def isJsWs (c : Char) : Bool :=
  c = ' ' ∨ c = '\t' ∨ c = '\n' ∨ c = '\r'

/-- Numeric value of a list of decimal digit characters. -/
def natOfDigits (cs : List Char) : Nat :=
  cs.foldl (fun n c => 10 * n + (c.toNat - '0'.toNat)) 0

/-- Strip one optional leading sign; returns (isNegative, rest). -/
def splitSign : List Char → Bool × List Char
  | '+' :: cs => (false, cs)
  | '-' :: cs => (true, cs)
  | cs => (false, cs)

/-- Parse the optional exponent suffix of a decimal literal. -/
def parseExp (base : Dec10) : List Char → Option Dec10
  | [] => some base
  | 'e' :: rest =>
    let (neg, r1) := splitSign rest
    let ds := r1.takeWhile Char.isDigit
    if ds.isEmpty ∨ ¬ (r1.dropWhile Char.isDigit).isEmpty then none
    else some (if neg then base.shiftDown (natOfDigits ds) else base.shiftUp (natOfDigits ds))
  | 'E' :: rest =>
    let (neg, r1) := splitSign rest
    let ds := r1.takeWhile Char.isDigit
    if ds.isEmpty ∨ ¬ (r1.dropWhile Char.isDigit).isEmpty then none
    else some (if neg then base.shiftDown (natOfDigits ds) else base.shiftUp (natOfDigits ds))
  | _ => none

/-- Parse an unsigned decimal literal (`123`, `1.5`, `.5`, `5.`, with an
optional exponent); `none` means the token is not numeric (NaN). -/
def jsDecimal (cs : List Char) : Option Dec10 :=
  let ip := cs.takeWhile Char.isDigit
  let r1 := cs.dropWhile Char.isDigit
  let fp := match r1 with
    | '.' :: t => t.takeWhile Char.isDigit
    | _ => []
  let r2 := match r1 with
    | '.' :: t => t.dropWhile Char.isDigit
    | _ => r1
  if ip.isEmpty ∧ fp.isEmpty then none
  else
    parseExp ⟨(natOfDigits ip : Int) * 10 ^ fp.length + natOfDigits fp, fp.length⟩ r2

/-- Model of JavaScript `Number(string)` on the token shapes produced by
splitting OBJ lines: whitespace-trimmed; the empty string coerces to `0`;
`Infinity` literals; signed decimal literals with optional fraction and
exponent; anything else is NaN.  (The exotic `0x`/`0o`/`0b` literal forms
never arise from mesh data and are not modelled.) -/
def jsNumber (s : String) : JSNum :=
  let t := ((s.toList.dropWhile isJsWs).reverse.dropWhile isJsWs).reverse
  if t.isEmpty then .fin ⟨0, 0⟩
  else if t = "Infinity".toList ∨ t = "+Infinity".toList then .pinf
  else if t = "-Infinity".toList then .ninf
  else
    let (neg, rest) := splitSign t
    match jsDecimal rest with
    | some v => .fin (if neg then v.neg else v)
    | none => .nan

/-- JavaScript array indexing as it feeds `Math.min`/`Math.max` in the
parser: a missing component is `undefined`, which `ToNumber` turns into
NaN inside `Math.min`/`Math.max`. -/
def vget (v : List JSNum) (i : Nat) : JSNum := (v.get? i).getD .nan

/-- Axis-aligned bounding box, six JavaScript numbers
(`boundingBox.min.{x,y,z}` / `boundingBox.max.{x,y,z}` in the source). -/
structure BBox where
  minX : JSNum
  minY : JSNum
  minZ : JSNum
  maxX : JSNum
  maxY : JSNum
  maxZ : JSNum
deriving DecidableEq

/-- Initial bounding box of `parse3DModel`
(line 51: min = Infinity, max = -Infinity on every axis). -/
def initBB : BBox :=
  { minX := .pinf, minY := .pinf, minZ := .pinf
    maxX := .ninf, maxY := .ninf, maxZ := .ninf }

/-- Accumulated OBJ data (the `data` object of `parse3DModel`, lines 46-52). -/
structure ObjData where
  vertices : List (List JSNum)
  faces : List (List String)
  materials : List String
  textures : List (List JSNum)
  boundingBox : BBox
deriving DecidableEq

def initObjData : ObjData :=
  { vertices := [], faces := [], materials := [], textures := [], boundingBox := initBB }

/-- The token list of a line after `line.split(' ').slice(1).map(Number)`. -/
def objTokens (line : String) : List JSNum :=
  ((jsSplit line ' ').drop 1).map jsNumber

/-- Bounding-box update for one vertex (source lines 66-71). -/
def updateBB (b : BBox) (v : List JSNum) : BBox :=
  { minX := b.minX.jsMin (vget v 0)
    minY := b.minY.jsMin (vget v 1)
    minZ := b.minZ.jsMin (vget v 2)
    maxX := b.maxX.jsMax (vget v 0)
    maxY := b.maxY.jsMax (vget v 1)
    maxZ := b.maxZ.jsMax (vget v 2) }

/-- One iteration of the OBJ line loop of `parse3DModel` (lines 61-79). -/
def objStep (d : ObjData) (line : String) : ObjData :=
  if jsStartsWith line "v " then
    let vertex := objTokens line
    { d with vertices := d.vertices ++ [vertex]
             boundingBox := updateBB d.boundingBox vertex }
  else if jsStartsWith line "f " then
    { d with faces := d.faces ++ [(jsSplit line ' ').drop 1] }
  else if jsStartsWith line "mtllib " then
    { d with materials := d.materials ++ [((jsSplit line ' ').drop 1).headD ""] }
  else if jsStartsWith line "vt " then
    { d with textures := d.textures ++ [objTokens line] }
  else d

/-- The complete OBJ extraction over `content.split('\n')`. -/
def objExtract (c : String) : ObjData :=
  List.foldl objStep initObjData (jsSplit c '\n')

/-- Dimensions derived from the bounding box (lines 88-92). -/
structure Dimensions where
  width : JSNum
  height : JSNum
  depth : JSNum
deriving DecidableEq

/-- Centre point derived from the bounding box (lines 95-99). -/
structure Center where
  x : JSNum
  y : JSNum
  z : JSNum
deriving DecidableEq

/-- Return value of `parse3DModel` (lines 101-105). -/
structure ParsedModel extends ObjData where
  dimensions : Dimensions
  center : Center
deriving DecidableEq

def finishParse (d : ObjData) : ParsedModel :=
  { toObjData := d
    dimensions :=
      { width := d.boundingBox.maxX.sub d.boundingBox.minX
        height := d.boundingBox.maxY.sub d.boundingBox.minY
        depth := d.boundingBox.maxZ.sub d.boundingBox.minZ }
    center :=
      { x := (d.boundingBox.maxX.add d.boundingBox.minX).half
        y := (d.boundingBox.maxY.add d.boundingBox.minY).half
        z := (d.boundingBox.maxZ.add d.boundingBox.minZ).half } }

deriving instance DecidableEq for Except

/-- Errors thrown by the JavaScript code paths that the controllers catch. -/
inductive JsError where
  | castError
  | referenceError (msg : String)
  | typeError (msg : String)
  | error (msg : String)
deriving DecidableEq

/-- The `.message` property used when a caught error is echoed in `details`. -/
def JsError.message : JsError → String
  | .castError => "Cast to ObjectId failed"
  | .referenceError m => m
  | .typeError m => m
  | .error m => m

/-- Model of `parse3DModel(filePath, format)` (lines 45-110).  The file
read is represented by its optional content: `none` models a read
failure; otherwise the OBJ branch tokenises the content, and every other
format tag throws `Unsupported format`. -/
def parse3DModel (content : Option String) (format : String) :
    Except JsError ParsedModel :=
  match content with
  | none => .error (.error "ENOENT: no such file or directory")
  | some c =>
    if jsToLower format = "obj" then .ok (finishParse (objExtract c))
    else .error (.error ("Unsupported format: " ++ format))

/-- JavaScript truthiness of a string-or-undefined value
(`undefined` and the empty string are falsy). -/
def strTruthy : Option String → Bool
  | none => false
  | some s => ¬ s.toList.isEmpty

/-- JavaScript `a || b` for a string-or-undefined `a` and a string `b`. -/
def jsOrStr (a : Option String) (b : String) : String :=
  match a with
  | some s => if s.toList.isEmpty then b else s
  | none => b

/-- Is `c` a hexadecimal digit? -/
def isHexChar (c : Char) : Bool :=
  c.isDigit ∨ ('a' ≤ c ∧ c ≤ 'f') ∨ ('A' ≤ c ∧ c ≤ 'F')

/-- Modelled from Mongoose: a string casts to an ObjectId when it is 24
hexadecimal characters, or 12 characters long (taken as 12 raw bytes);
`findById` on anything else raises a `CastError` (the controllers'
`error.name === 'CastError'` branch). -/
def isValidObjectId (s : String) : Bool :=
  (s.toList.length = 24 ∧ s.toList.all isHexChar) ∨ s.toList.length = 12

/-- A record store: the documents of one MongoDB collection, keyed by id. -/
abbrev StoreOf (α : Type) : Type := List (String × α)

/-- Modelled from Mongoose `Model.findById`: `CastError` on a malformed
id, otherwise the document with that id, if any. -/
def findById {α : Type} (store : StoreOf α) (id : String) :
    Except JsError (Option α) :=
  if isValidObjectId id then
    .ok ((store.find? (fun p => p.1 == id)).map (·.2))
  else .error .castError

/-- Plain lookup in a store (used to state properties). -/
def lookupStore {α : Type} (store : StoreOf α) (id : String) : Option α :=
  (store.find? (fun p => p.1 == id)).map (·.2)

/-- Modelled from Mongoose `Model.findByIdAndDelete`: remove the document
with the given id. -/
def removeId {α : Type} (store : StoreOf α) (id : String) : StoreOf α :=
  store.filter (fun p => p.1 != id)

/-- Modelled behaviour of `new URL(u).pathname` for the `http(s)://`
URLs this system stores: the part from the first `/` after the authority
up to a query or fragment; other strings raise a `TypeError`. -/
def urlPathname (u : String) : Except JsError String :=
  let n := if jsStartsWith (jsToLower u) "https://" then 8
           else if jsStartsWith (jsToLower u) "http://" then 7
           else 0
  if n = 0 then .error (.typeError "Invalid URL")
  else
    let rest := (u.toList.drop n).dropWhile (fun c => c ≠ '/' ∧ c ≠ '?' ∧ c ≠ '#')
    match rest with
    | '/' :: _ => .ok (String.mk (rest.takeWhile (fun c => c ≠ '?' ∧ c ≠ '#')))
    | _ => .ok "/"

/-- `path.join` for the plain relative segments used by the controllers
(no normalisation is needed for them). -/
def pathJoin (a b : String) : String := a ++ "/" ++ b

/-- `path.basename`: the final `/`-separated segment. -/
def basename (p : String) : String := (jsSplit p '/').getLastD p

/-- `path.extname`: the suffix of the basename from its last dot, empty
for dotless names and for a leading-dot-only name. -/
def extname (p : String) : String :=
  let rev := (basename p).toList.reverse
  let ext := rev.takeWhile (fun c => c ≠ '.')
  match rev.drop ext.length with
  | '.' :: rest => if rest.isEmpty then "" else String.mk ('.' :: ext.reverse)
  | _ => ""

/-- The `__dirname` of the controllers directory (an opaque tag: the
claims only need that the same resolved path reaches every filesystem
call). -/
def dirnameTag : String := "src/controllers"

/-- Metadata sub-document of a 3-D model record
(`threeDModelSchema.metadata` plus the ad-hoc keys the controller sets). -/
structure ModelMetadata where
  size : Option Nat := none
  bucket : Option String := none
  storagePath : Option String := none
  originalName : Option String := none
  mimeType : Option String := none
  verticesCount : Option Nat := none
  facesCount : Option Nat := none
  boundingBox : Option BBox := none
  dimensions : Option Dimensions := none
  center : Option Center := none
deriving DecidableEq

/-- A persisted 3-D model record (`models/3DModel`). The schema requires
`fileName`, `fileUrl`, `storageType ∈ {s3, local}`, `format`; `filePath`
is optional. -/
structure ModelRecord where
  fileName : String
  fileUrl : Option String := none
  filePath : Option String := none
  storageType : String := "s3"
  format : String
  metadata : ModelMetadata := {}
  userId : String := "anonymous"
deriving DecidableEq

/-- Metadata sub-document of an image record (`imageSchema.metadata`). -/
structure ImageMetadata where
  size : Option Nat := none
  mimeType : Option String := none
  bucket : Option String := none
  storagePath : Option String := none
deriving DecidableEq

/-- A persisted image record (`models/Image`); `filePath` is optional
(records created by the S3 upload paths have none). -/
structure ImageRecord where
  originalName : String
  fileName : String
  fileUrl : Option String := none
  filePath : Option String := none
  storageType : String := "s3"
  metadata : ImageMetadata := {}
  userId : String := "anonymous"
deriving DecidableEq

/-- The uploaded file object multer attaches to the request
(memory storage: the bytes are in `buffer`, modelled as a string). -/
structure UploadedFile where
  originalname : String
  buffer : String
  size : Nat
  mimetype : String
deriving DecidableEq

/-- The parts of the create request the controller reads. -/
structure CreateReq where
  file : Option UploadedFile := none
  userId : Option String := none
  storageType : Option String := none
deriving DecidableEq

/-- External collaborators and non-deterministic inputs: the S3 SDK, the
filesystem, the configured environment, timestamps and generated ids.
Each call site of the source consumes the corresponding field. -/
structure Env where
  s3Get : String → String → Except String (Option String × String)
  s3Put : String → String → String → Except String Unit
  s3Delete : String → String → Except String Unit
  fsExists : String → Bool
  fsWrite : String → String → Except String Unit
  fsUnlink : String → Except String Unit
  ensureDir : Except String Unit
  bucketName : String
  region : String
  timestamp : String
  uniqueSuffix : String
  protocol : String
  host : String
  newId : String

/-- Outcome of `GET /api/3dmodels/:id`. -/
inductive GetResult where
  | stream (contentType : String) (body : String)
  | file (fullPath : String) (contentType : String)
  | err (status : Nat) (error : String) (details : Option String)
deriving DecidableEq

/-- Outcome of `POST /api/3dmodels`. -/
inductive CreateResult where
  | created (record : ModelRecord)
  | err (status : Nat) (error : String) (details : Option String)
deriving DecidableEq

/-- Outcome of `DELETE /api/3dmodels/:id`. -/
inductive DeleteResult where
  | ok (message : String)
  | err (status : Nat) (error : String) (details : Option String)
deriving DecidableEq

/-- A byte-deletion attempt made against a storage backend during an
asset delete, recorded together with the backend's outcome (which the
source logs and swallows). -/
inductive BackendAttempt where
  | s3Delete (bucket key : String) (outcome : Except String Unit)
  | fsUnlink (path : String) (outcome : Except String Unit)
deriving DecidableEq

/-- The S3 key resolution shared verbatim by `get3DModel` (lines 273-278)
and `delete3DModel` (lines 430-435): prefer `metadata.storagePath`, else
parse the path out of an `amazonaws.com` URL (`new URL` may throw). -/
def s3KeyOfRecord (m : ModelRecord) : Except JsError (Option String) :=
  let key := m.metadata.storagePath
  if ¬ strTruthy key ∧ jsIncludes (m.fileUrl.getD "") "amazonaws.com" then
    match urlPathname (m.fileUrl.getD "") with
    | .error e => .error e
    | .ok p => .ok (some (strDrop p 1))
  else .ok key

/-- The bucket used for S3 calls:
`model.metadata?.bucket || process.env.S3_BUCKET_NAME`. -/
def bucketOf (env : Env) (m : ModelRecord) : String :=
  jsOrStr m.metadata.bucket env.bucketName

/-- What the remote branch of `get3DModel` produces once a key is in
hand: stream the object with its content type, or the caught-error 500
(lines 284-305). -/
def s3Serve (env : Env) (m : ModelRecord) (key : String) : GetResult :=
  match env.s3Get (bucketOf env m) key with
  | .ok (ct, body) => .stream (ct.getD "application/octet-stream") body
  | .error e => .err 500 "Error retrieving 3D model from storage" (some e)

/-- `get3DModel` (lines 255-351): load the record (404 absent, 400 on
malformed id), then dispatch on the storage kind. -/
def get3DModel (env : Env) (store : StoreOf ModelRecord) (id : String) : GetResult :=
  match findById store id with
  | .error .castError => .err 400 "Invalid 3D model ID format" none
  | .error e => .err 500 "An error occurred while fetching the 3D model" (some e.message)
  | .ok none => .err 404 "3D model not found" none
  | .ok (some m) =>
    if m.storageType == "s3" && strTruthy m.fileUrl then
      match s3KeyOfRecord m with
      | .error e => .err 500 "Error retrieving 3D model from storage" (some e.message)
      | .ok key =>
        if ¬ strTruthy key then
          .err 500 "Error retrieving 3D model from storage" (some "Could not determine S3 key")
        else s3Serve env m (key.getD "")
    else if m.storageType == "local" && strTruthy m.filePath then
      let fullPath := pathJoin (pathJoin dirnameTag "..") (m.filePath.getD "")
      if env.fsExists fullPath then .file fullPath "model/3d"
      else .err 404 "3D model not found" (some "File not found on server")
    else .err 404 "3D model not available in storage" none

/-- Formats the create endpoint accepts (line 137). -/
def allowedFormats : List String :=
  ["obj", "fbx", "glb", "gltf", "stl", "dae", "3ds", "blend"]

/-- `create3DModel` (lines 121-246).  Notable points traced from the
source: the S3 branch throws on an empty buffer (line 167, since an empty
buffer is falsy); the metadata-merge block for local storage
(lines 222-229) evaluates `parse3DModel(fullPath, format)`, but
`fullPath` is a `const` scoped inside the try-block of lines 193-218 and
is not in scope at line 223, so JavaScript raises
`ReferenceError: fullPath is not defined`, which the outer catch
(line 238) turns into a 500; no record is persisted on that path.  (The
block is broken a second way: its `const modelData` shadows the outer
`modelData`, and the parse result has no `metadata` property.) -/
def create3DModel (env : Env) (store : StoreOf ModelRecord) (req : CreateReq) :
    CreateResult × StoreOf ModelRecord :=
  match req.file with
  | none => (.err 400 "No file uploaded" none, store)
  | some file =>
    let storageType := req.storageType.getD "s3"
    let format := strDrop (jsToLower (extname file.originalname)) 1
    if ¬ allowedFormats.contains format then
      (.err 400 "Unsupported 3D model format" none, store)
    else
      let base : ModelRecord :=
        { fileName := file.originalname
          userId := req.userId.getD "anonymous"
          storageType := storageType
          format := format
          metadata := { size := some file.size } }
      if storageType == "s3" then
        if file.buffer.toList.isEmpty then
          (.err 500 "Failed to upload file to S3" (some "No file data available for upload"), store)
        else
          let key := "3d-models/file_" ++ env.uniqueSuffix ++ jsToLower (extname file.originalname)
          match env.s3Put env.bucketName key file.buffer with
          | .error e => (.err 500 "Failed to upload file to S3" (some e), store)
          | .ok _ =>
            let saved : ModelRecord :=
              { base with
                  fileUrl := some ("https://" ++ env.bucketName ++ ".s3." ++ env.region
                    ++ ".amazonaws.com/" ++ key)
                  metadata := { base.metadata with
                                  bucket := some env.bucketName
                                  storagePath := some key
                                  originalName := some file.originalname
                                  mimeType := some file.mimetype } }
            (.created saved, store ++ [(env.newId, saved)])
      else
        match env.ensureDir with
        | .error e => (.err 500 "Failed to save file locally" (some e), store)
        | .ok _ =>
          let filePath := pathJoin "uploads" (env.timestamp ++ "-" ++ file.originalname)
          let fullPath := pathJoin (pathJoin dirnameTag "..") filePath
          match env.fsWrite fullPath file.buffer with
          | .error e => (.err 500 "Failed to save file locally" (some e), store)
          | .ok _ =>
            let saved : ModelRecord :=
              { base with
                  filePath := some filePath
                  fileUrl := some (env.protocol ++ "://" ++ env.host ++ "/" ++ filePath)
                  metadata := { base.metadata with
                                  storagePath := some filePath
                                  originalName := some file.originalname
                                  mimeType := some file.mimetype } }
            if storageType == "local" then
              -- Lines 222-229: ReferenceError (see the doc comment above).
              (.err 500 "Failed to create 3D model" (some "fullPath is not defined"), store)
            else
              (.created saved, store ++ [(env.newId, saved)])

/-- `delete3DModel` (lines 411-489): find the record (404 if absent),
best-effort delete of the underlying bytes (every backend failure,
including a `new URL` throw, is caught and swallowed: lines 446-449 and
467-470), then remove the record and answer 200.  The returned list
records the byte-deletion attempts together with the backend outcomes
that the source ignores.  (The empty-directory `rmdir` attempt of lines
460-465 has no observable effect on this state and is not modelled.) -/
def delete3DModel (env : Env) (store : StoreOf ModelRecord) (id : String) :
    DeleteResult × StoreOf ModelRecord × List BackendAttempt :=
  match findById store id with
  | .error e =>
    (.err 500 "An error occurred while deleting the 3D model" (some e.message), store, [])
  | .ok none => (.err 404 "3D model not found" none, store, [])
  | .ok (some m) =>
    let attempts :=
      if m.storageType == "s3" && strTruthy m.fileUrl then
        match s3KeyOfRecord m with
        | .error _ => []
        | .ok key =>
          if strTruthy key then
            [BackendAttempt.s3Delete (bucketOf env m) (key.getD "")
              (env.s3Delete (bucketOf env m) (key.getD ""))]
          else []
      else if m.storageType == "local" && strTruthy m.filePath then
        let fullPath := pathJoin (pathJoin dirnameTag "..") (m.filePath.getD "")
        if env.fsExists fullPath then
          [BackendAttempt.fsUnlink fullPath (env.fsUnlink fullPath)]
        else []
      else []
    (.ok "3D model deleted successfully", removeId store id, attempts)

/-- Outcome of `GET /api/images/:id/path`. -/
inductive PathResult where
  | ok (imagePath publicUrl fileName : String) (metadata : ImageMetadata)
  | err (status : Nat) (error : String)
deriving DecidableEq

/-- `getImagePath` of `src/controllers/imageController.js` (lines
184-233): find the image (404 absent, 400 malformed id), join `__dirname
+ '/../' + image.filePath`, 404 if nothing exists there on local disk,
else answer the relative path and `/uploads/`-based public URL.  When
`image.filePath` is `undefined`, `path.join` (line 198) raises a
`TypeError`, which the catch handles with the generic 500 branch (it is
not a `CastError`). -/
def getImagePath (env : Env) (store : StoreOf ImageRecord) (id : String) : PathResult :=
  match findById store id with
  | .error .castError => .err 400 "Invalid image ID format."
  | .error _ => .err 500 "An error occurred while retrieving the image path."
  | .ok none => .err 404 "Image not found."
  | .ok (some image) =>
    match image.filePath with
    | none => .err 500 "An error occurred while retrieving the image path."
    | some fp =>
      let imagePath := pathJoin (pathJoin dirnameTag "..") fp
      if env.fsExists imagePath then
        .ok fp ("/uploads/" ++ basename fp) image.fileName image.metadata
      else .err 404 "File not found on server."

/-! Concrete fixtures used by the closed-form evaluations. -/

/-- An environment in which every backend call succeeds. -/
def envOk : Env :=
  { s3Get := fun _ _ => .ok (none, "")
    s3Put := fun _ _ _ => .ok ()
    s3Delete := fun _ _ => .ok ()
    fsExists := fun _ => true
    fsWrite := fun _ _ => .ok ()
    fsUnlink := fun _ => .ok ()
    ensureDir := .ok ()
    bucketName := "tryon-bucket"
    region := "eu-north-1"
    timestamp := "1700000000000"
    uniqueSuffix := "1700000000000-123456789"
    protocol := "http"
    host := "localhost:5000"
    newId := "64b000000000000000000009" }

/-- `envOk` with an empty local disk. -/
def envNoDisk : Env := { envOk with fsExists := fun _ => false }

/-- The 3-vertex, 1-face OBJ buffer of the specification scenario. -/
def objBuf : String := "v 0 0 0\nv 1 0 0\nv 0 1 0\nf 1 2 3\n"

/-- The upload request of the specification scenario:
the OBJ buffer with `storageType=local`. -/
def localObjReq : CreateReq :=
  { file := some { originalname := "model.obj", buffer := objBuf, size := 36,
                   mimetype := "model/obj" }
    storageType := some "local" }

/-- A well-formed ObjectId with no record behind it. -/
def freshId : String := "64b0000000000000000000aa"

/-- Id of the sample remote record. -/
def remoteId : String := "64b0000000000000000000ab"

/-- A remote-stored record carrying an explicit S3 key. -/
def remoteModel : ModelRecord :=
  { fileName := "chair.obj"
    fileUrl := some "https://tryon-bucket.s3.eu-north-1.amazonaws.com/3d-models/file_1.obj"
    storageType := "s3"
    format := "obj"
    metadata := { size := some 120, bucket := some "tryon-bucket"
                  storagePath := some "3d-models/file_1.obj" } }

/-- A one-record store holding `remoteModel`. -/
def remoteStore : StoreOf ModelRecord := [(remoteId, remoteModel)]

/-- A persisted integer-array record (`models/IntArray`; the fields the
retrieval path touches). -/
structure IntArrayRecord where
  data : List Int
  fileUrl : Option String := none
  storageType : String := "s3"
  userId : String := "anonymous"
deriving DecidableEq

/-- Outcome of `GET /api/intarrays/:id`. -/
inductive IntArrayResult where
  | ok (record : IntArrayRecord)
  | err (status : Nat) (error : String)
deriving DecidableEq

/-- The HTTP status an `IntArrayResult` is sent with. -/
def IntArrayResult.statusCode : IntArrayResult → Nat
  | .ok _ => 200
  | .err s _ => s

/-- `getIntArray` (lines 603-625 of the controller file): find the
record, 404 if absent, else answer it as JSON.  Unlike `get3DModel`,
its catch has no `CastError` branch: a malformed id falls to the
generic 500 `Error fetching integer array`. -/
def getIntArray (store : StoreOf IntArrayRecord) (id : String) : IntArrayResult :=
  match findById store id with
  | .error _ => .err 500 "Error fetching integer array"
  | .ok none => .err 404 "Integer array not found"
  | .ok (some a) => .ok a

/-- A vertex token list whose first three components are numbers, not
NaN (so neither malformed tokens nor missing components). -/
def goodVertex (v : List JSNum) : Bool :=
  vget v 0 != .nan && vget v 1 != .nan && vget v 2 != .nan

/-- Does `min[i] <= max[i]` hold on every axis of the bounding box? -/
def bbLe (b : BBox) : Bool :=
  b.minX.le b.maxX && b.minY.le b.maxY && b.minZ.le b.maxZ

/-- Does no axis of the bounding box hold NaN? -/
def bbNoNan (b : BBox) : Bool :=
  b.minX != .nan && b.minY != .nan && b.minZ != .nan &&
  b.maxX != .nan && b.maxY != .nan && b.maxZ != .nan

/-- Id of the sample remote-only image record. -/
def imgRemoteId : String := "64b0000000000000000000ac"

/-- An image record whose bytes live only in remote storage: a stored
object URL, no `filePath` (the S3 upload paths create such records). -/
def remoteOnlyImage : ImageRecord :=
  { originalName := "photo.png"
    fileName := "images/photo_1.png"
    fileUrl := some "https://tryon-bucket.s3.eu-north-1.amazonaws.com/images/photo_1.png"
    filePath := none
    storageType := "s3"
    metadata := { storagePath := some "images/photo_1.png", bucket := some "tryon-bucket" } }

/-- A one-record image store holding `remoteOnlyImage`. -/
def remoteImageStore : StoreOf ImageRecord := [(imgRemoteId, remoteOnlyImage)]

/-- Id of the sample S3-stored image record that still carries a
`filePath`. -/
def imgPathId : String := "64b0000000000000000000ad"

/-- An image record with a stored `filePath` whose bytes live only in
remote storage (nothing on the local disk). -/
def pathOnlyImage : ImageRecord :=
  { originalName := "photo2.png"
    fileName := "photo_2.png"
    fileUrl := some "https://tryon-bucket.s3.eu-north-1.amazonaws.com/images/photo_2.png"
    filePath := some "uploads/photo_2.png"
    storageType := "s3"
    metadata := {} }

/-- A one-record image store holding `pathOnlyImage`. -/
def pathImageStore : StoreOf ImageRecord := [(imgPathId, pathOnlyImage)]

/-! The claims. -/

/-- C1: the specification scenario says that uploading the OBJ buffer
`"v 0 0 0\nv 1 0 0\nv 0 1 0\nf 1 2 3\n"` with `storageType=local`
succeeds and persists `verticesCount=3`, `facesCount=1`,
`boundingBox.min={0,0,0}`, `boundingBox.max={1,1,0}`.  The extractor
indeed produces exactly those numbers (second through fourth conjuncts),
but the create operation itself answers 500 `Failed to create 3D model`
and persists nothing, because the metadata-merge block (lines 222-229)
references `fullPath` outside its scope: the claim is right about the
intended behaviour and the code is broken. -/
theorem create3DModel_local_metadata_bug :
    create3DModel envOk [] localObjReq
      = (.err 500 "Failed to create 3D model" (some "fullPath is not defined"), [])
    ∧ (objExtract objBuf).vertices.length = 3
    ∧ (objExtract objBuf).faces.length = 1
    ∧ (objExtract objBuf).boundingBox
        = { minX := .fin ⟨0, 0⟩, minY := .fin ⟨0, 0⟩, minZ := .fin ⟨0, 0⟩
            maxX := .fin ⟨1, 0⟩, maxY := .fin ⟨1, 0⟩, maxZ := .fin ⟨0, 0⟩ } := by
  decide

/-- C5: an upload request with no file attached is answered with a 400
whose error names the missing file, and the record store is unchanged. -/
theorem create3DModel_no_file_400 (env : Env) (store : StoreOf ModelRecord)
    (req : CreateReq) (h : req.file = none) :
    create3DModel env store req = (.err 400 "No file uploaded" none, store) := by
  simp [create3DModel, h]

/-- Witness for C5 at the empty request. -/
theorem create3DModel_no_file_400_witness :
    create3DModel envOk [] {} = (.err 400 "No file uploaded" none, []) :=
  create3DModel_no_file_400 envOk [] {} rfl

/-- C9, counterexample: the claim covers every retrieval-by-id
operation, but `getIntArray` — wired live at `GET /api/intarrays/:id` —
has no `CastError` branch, so on a malformed id it answers the generic
500 `Error fetching integer array`, not a 400 result. -/
theorem getIntArray_malformed_id_counterexample :
    isValidObjectId "not-a-valid-objectid" = false
    ∧ getIntArray [] "not-a-valid-objectid" = .err 500 "Error fetching integer array"
    ∧ (getIntArray [] "not-a-valid-objectid").statusCode ≠ 400 := by
  decide

/-- C9 (amended): for the 3-D model retrieval-by-id operation, a
malformed id (one Mongoose cannot cast: neither 24 hexadecimal
characters nor 12 characters) yields a 400 `Invalid 3D model ID format`,
distinct from the 404 `3D model not found` yielded by a well-formed id
with no record behind it; the integer-array retrieval-by-id operation
has no `CastError` branch and instead answers a 500 `Error fetching
integer array` on a malformed id. -/
theorem retrieval_id_errors (env : Env) (store : StoreOf ModelRecord)
    (istore : StoreOf IntArrayRecord) (id : String) :
    (isValidObjectId id = false →
      get3DModel env store id = .err 400 "Invalid 3D model ID format" none)
    ∧ (isValidObjectId id = true → lookupStore store id = none →
      get3DModel env store id = .err 404 "3D model not found" none)
    ∧ GetResult.err 400 "Invalid 3D model ID format" none
        ≠ GetResult.err 404 "3D model not found" none
    ∧ (isValidObjectId id = false →
      getIntArray istore id = .err 500 "Error fetching integer array") := by
  refine ⟨fun h => ?_, fun h1 h2 => ?_, by decide, fun h => ?_⟩
  · simp [get3DModel, findById, h]
  · simp only [lookupStore] at h2
    simp [get3DModel, findById, h1, h2]
  · simp [getIntArray, findById, h]

/-- Witness for the amended C9: one malformed id against both
operations, one fresh well-formed id. -/
theorem retrieval_id_errors_witness :
    get3DModel envOk [] "not-a-valid-objectid"
      = .err 400 "Invalid 3D model ID format" none
    ∧ get3DModel envOk [] freshId = .err 404 "3D model not found" none
    ∧ getIntArray [] "not-a-valid-objectid" = .err 500 "Error fetching integer array" :=
  ⟨(retrieval_id_errors envOk [] [] "not-a-valid-objectid").1 (by decide),
   (retrieval_id_errors envOk [] [] freshId).2.1 (by decide) rfl,
   (retrieval_id_errors envOk [] [] "not-a-valid-objectid").2.2.2 (by decide)⟩

/-- The vertex list of one parser step: a line starting with `v ` is
appended (whatever its tokens hold), every other line leaves it alone. -/
theorem objStep_vertices (d : ObjData) (l : String) :
    (objStep d l).vertices
      = if jsStartsWith l "v " then d.vertices ++ [objTokens l] else d.vertices := by
  simp only [objStep]
  split_ifs <;> rfl

/-- Folding the parser step counts exactly the `v `-prefixed lines. -/
theorem foldl_objStep_length (lines : List String) (d : ObjData) :
    (List.foldl objStep d lines).vertices.length
      = d.vertices.length + lines.countP (fun l => jsStartsWith l "v ") := by
  induction lines generalizing d with
  | nil => simp
  | cons l ls ih =>
    rw [List.foldl_cons, ih, List.countP_cons]
    rcases hv : jsStartsWith l "v " with _ | _
    · simp [objStep_vertices, hv]
    · simp [objStep_vertices, hv]
      omega

/-- C3: on every OBJ input the extractor succeeds (malformed lines are
skipped silently, never an error), and the parsed vertex count is
exactly the number of lines of the input that start with `v `. -/
theorem parse3DModel_vertices_count (c : String) :
    parse3DModel (some c) "obj" = .ok (finishParse (objExtract c))
    ∧ (objExtract c).vertices.length
        = (jsSplit c '\n').countP (fun l => jsStartsWith l "v ") := by
  constructor
  · have h : jsToLower "obj" = "obj" := by decide
    simp [parse3DModel, h]
  · simpa [objExtract, initObjData] using foldl_objStep_length (jsSplit c '\n') initObjData

/-- Removing an id from a store makes it unfindable. -/
theorem find?_removeId {α : Type} (store : StoreOf α) (id : String) :
    (removeId store id).find? (fun p => p.1 == id) = none := by
  rw [List.find?_eq_none]
  intro x hx
  rcases List.mem_filter.mp hx with ⟨_, hne⟩
  simpa using hne

/-- C7: whenever a record exists, the delete operation removes it and
answers success, for every backend environment — in particular when the
byte deletion fails, since those failures are swallowed. -/
theorem delete3DModel_removes_record (env : Env) (store : StoreOf ModelRecord)
    (id : String) (m : ModelRecord) (hfind : findById store id = .ok (some m)) :
    (delete3DModel env store id).1 = .ok "3D model deleted successfully"
    ∧ lookupStore (delete3DModel env store id).2.1 id = none := by
  refine ⟨?_, ?_⟩ <;> simp [delete3DModel, hfind, lookupStore, find?_removeId]

/-- Witness for C7: deleting the sample remote record under an
environment whose byte deletion always fails. -/
theorem delete3DModel_removes_record_witness :
    (delete3DModel { envOk with s3Delete := fun _ _ => .error "AccessDenied" }
        remoteStore remoteId).1 = .ok "3D model deleted successfully"
    ∧ lookupStore (delete3DModel { envOk with s3Delete := fun _ _ => .error "AccessDenied" }
        remoteStore remoteId).2.1 remoteId = none :=
  delete3DModel_removes_record _ remoteStore remoteId remoteModel (by decide)

/-- C6: deleting the same id twice is safe: when a first delete succeeds,
a second delete of the same id (under any environment) answers 404
`3D model not found` instead of crashing. -/
theorem delete3DModel_twice_404 (env env2 : Env) (store : StoreOf ModelRecord)
    (id : String) (h : (delete3DModel env store id).1 = .ok "3D model deleted successfully") :
    (delete3DModel env2 (delete3DModel env store id).2.1 id).1
      = .err 404 "3D model not found" none := by
  rcases hf : findById store id with e | o
  · simp [delete3DModel, hf] at h
  · rcases o with _ | m
    · simp [delete3DModel, hf] at h
    · have hvalid : isValidObjectId id = true := by
        by_contra hv
        simp [findById, Bool.not_eq_true] at hf hv
        simp [hv] at hf
      have hstore : (delete3DModel env store id).2.1 = removeId store id := by
        simp [delete3DModel, hf]
      rw [hstore]
      have hfind2 : findById (removeId store id) id = .ok none := by
        simp [findById, hvalid, find?_removeId]
      simp [delete3DModel, hfind2]

/-- Witness for C6 on the sample remote store. -/
theorem delete3DModel_twice_404_witness :
    (delete3DModel envOk (delete3DModel envOk remoteStore remoteId).2.1 remoteId).1
      = .err 404 "3D model not found" none :=
  delete3DModel_twice_404 envOk envOk remoteStore remoteId (by decide)

/-- Once the inline key resolution of the remote branch produces a truthy
key, retrieval is exactly `s3Serve` at that key. -/
theorem get3DModel_resolved (env : Env) (store : StoreOf ModelRecord)
    (id : String) (m : ModelRecord) (k : String)
    (hfind : findById store id = .ok (some m))
    (hkind : m.storageType = "s3")
    (hurl : strTruthy m.fileUrl = true)
    (hkey : s3KeyOfRecord m = .ok (some k))
    (hkt : strTruthy (some k) = true) :
    get3DModel env store id = s3Serve env m k := by
  simp [get3DModel, hfind, hkind, hurl, hkey, hkt]

/-- Once the inline key resolution of the remote branch produces a truthy
key, delete attempts exactly one S3 deletion at that key. -/
theorem delete3DModel_resolved (env : Env) (store : StoreOf ModelRecord)
    (id : String) (m : ModelRecord) (k : String)
    (hfind : findById store id = .ok (some m))
    (hkind : m.storageType = "s3")
    (hurl : strTruthy m.fileUrl = true)
    (hkey : s3KeyOfRecord m = .ok (some k))
    (hkt : strTruthy (some k) = true) :
    (delete3DModel env store id).2.2
      = [.s3Delete (bucketOf env m) k (env.s3Delete (bucketOf env m) k)] := by
  simp [delete3DModel, hfind, hkind, hurl, hkey, hkt]

/-- An explicit truthy `metadata.storagePath` wins the key resolution. -/
theorem s3KeyOfRecord_storagePath (m : ModelRecord) (k : String)
    (hk : m.metadata.storagePath = some k)
    (hkt : strTruthy (some k) = true) :
    s3KeyOfRecord m = .ok (some k) := by
  simp [s3KeyOfRecord, hk, hkt]

/-- C2: for a remote-stored record, both the retrieval dispatcher and the
delete operation resolve the object key as `metadata.storagePath` when it
is present (first conjunct); otherwise as the path component parsed out
of the stored `amazonaws.com` URL, scheme and host stripped (second
conjunct); and when neither is available, retrieval answers the handled
500 `Error retrieving 3D model from storage` — the caught
`Could not determine S3 key` throw — while delete simply skips the byte
deletion and still succeeds (third conjunct). -/
theorem remote_key_resolution (env : Env) (store : StoreOf ModelRecord)
    (id : String) (m : ModelRecord)
    (hfind : findById store id = .ok (some m))
    (hkind : m.storageType = "s3")
    (hurl : strTruthy m.fileUrl = true) :
    (∀ k, m.metadata.storagePath = some k → strTruthy (some k) = true →
      get3DModel env store id = s3Serve env m k
      ∧ (delete3DModel env store id).2.2
          = [.s3Delete (bucketOf env m) k (env.s3Delete (bucketOf env m) k)])
    ∧ (strTruthy m.metadata.storagePath = false →
       jsIncludes (m.fileUrl.getD "") "amazonaws.com" = true →
       ∀ p, urlPathname (m.fileUrl.getD "") = .ok p →
       strTruthy (some (strDrop p 1)) = true →
         get3DModel env store id = s3Serve env m (strDrop p 1)
         ∧ (delete3DModel env store id).2.2
             = [.s3Delete (bucketOf env m) (strDrop p 1)
                 (env.s3Delete (bucketOf env m) (strDrop p 1))])
    ∧ (strTruthy m.metadata.storagePath = false →
       jsIncludes (m.fileUrl.getD "") "amazonaws.com" = false →
         get3DModel env store id
           = .err 500 "Error retrieving 3D model from storage"
               (some "Could not determine S3 key")
         ∧ (delete3DModel env store id).1 = .ok "3D model deleted successfully"
         ∧ (delete3DModel env store id).2.2 = []) := by
  refine ⟨fun k hk hkt => ?_, fun hsp hinc p hp hpt => ?_, fun hsp hinc => ?_⟩
  · have hkey := s3KeyOfRecord_storagePath m k hk hkt
    exact ⟨get3DModel_resolved env store id m k hfind hkind hurl hkey hkt,
           delete3DModel_resolved env store id m k hfind hkind hurl hkey hkt⟩
  · have hkey : s3KeyOfRecord m = .ok (some (strDrop p 1)) := by
      simp [s3KeyOfRecord, hsp, hinc, hp]
    exact ⟨get3DModel_resolved env store id m _ hfind hkind hurl hkey hpt,
           delete3DModel_resolved env store id m _ hfind hkind hurl hkey hpt⟩
  · have hkey : s3KeyOfRecord m = .ok m.metadata.storagePath := by
      simp [s3KeyOfRecord, hsp, hinc]
    refine ⟨?_, ?_, ?_⟩
    · simp [get3DModel, hfind, hkind, hurl, hkey, hsp]
    · simp [delete3DModel, hfind]
    · simp [delete3DModel, hfind, hkind, hurl, hkey, hsp]

/-- Witness for C2: the sample remote record resolves through its
explicit `metadata.storagePath`. -/
theorem remote_key_resolution_witness :
    get3DModel envOk remoteStore remoteId
      = s3Serve envOk remoteModel "3d-models/file_1.obj"
    ∧ (delete3DModel envOk remoteStore remoteId).2.2
        = [.s3Delete "tryon-bucket" "3d-models/file_1.obj" (.ok ())] :=
  (remote_key_resolution envOk remoteStore remoteId remoteModel
      (by decide) rfl (by decide)).1
    "3d-models/file_1.obj" rfl (by decide)

/-- C8: when the backend fetch for a remote-stored asset fails, the
retrieval dispatcher hands the caller the 500 retrieval error — the
failure is neither swallowed by falling back to another storage path
(the conclusion holds whatever the local-disk side of `env` says) nor
retried. -/
theorem get3DModel_backend_failure (env : Env) (store : StoreOf ModelRecord)
    (id : String) (m : ModelRecord) (k e : String)
    (hfind : findById store id = .ok (some m))
    (hkind : m.storageType = "s3")
    (hurl : strTruthy m.fileUrl = true)
    (hk : m.metadata.storagePath = some k)
    (hkt : strTruthy (some k) = true)
    (hfail : env.s3Get (bucketOf env m) k = .error e) :
    get3DModel env store id
      = .err 500 "Error retrieving 3D model from storage" (some e) := by
  rw [get3DModel_resolved env store id m k hfind hkind hurl
        (s3KeyOfRecord_storagePath m k hk hkt) hkt, s3Serve, hfail]

/-- Witness for C8: fetching the sample remote record under a backend
whose object fetch fails. -/
theorem get3DModel_backend_failure_witness :
    get3DModel { envOk with s3Get := fun _ _ => .error "NoSuchKey" }
        remoteStore remoteId
      = .err 500 "Error retrieving 3D model from storage" (some "NoSuchKey") :=
  get3DModel_backend_failure _ remoteStore remoteId remoteModel
    "3d-models/file_1.obj" "NoSuchKey" (by decide) rfl (by decide) rfl (by decide) rfl

theorem Dec10.le_val {a b : Dec10} : a.le b = true ↔ a.val ≤ b.val := by
  have ha : (0:ℚ) < 10 ^ a.e := by positivity
  have hb : (0:ℚ) < 10 ^ b.e := by positivity
  rw [Dec10.le, Dec10.val, Dec10.val, div_le_div_iff₀ ha hb, decide_eq_true_eq]
  constructor
  · intro h; exact_mod_cast h
  · intro h; exact_mod_cast h

theorem Dec10.le_self (a : Dec10) : a.le a = true := Dec10.le_val.mpr (le_refl _)

theorem Dec10.le_chain {a b c : Dec10} (h1 : a.le b = true) (h2 : b.le c = true) :
    a.le c = true :=
  Dec10.le_val.mpr (le_trans (Dec10.le_val.mp h1) (Dec10.le_val.mp h2))

theorem Dec10.le_either (a b : Dec10) : a.le b = true ∨ b.le a = true := by
  rcases le_total a.val b.val with h | h
  · exact Or.inl (Dec10.le_val.mpr h)
  · exact Or.inr (Dec10.le_val.mpr h)

theorem JSNum.le_self_nonnan {a : JSNum} (h : a ≠ .nan) : a.le a = true := by
  cases a with
  | nan => exact absurd rfl h
  | pinf => rfl
  | ninf => rfl
  | fin v => simpa [JSNum.le] using Dec10.le_self v

theorem JSNum.le_total_nonnan {a b : JSNum} (ha : a ≠ .nan) (hb : b ≠ .nan) :
    a.le b = true ∨ b.le a = true := by
  cases a <;> cases b <;> simp_all [JSNum.le]
  exact Dec10.le_either _ _

theorem JSNum.le_trans_bool {a b c : JSNum} (h1 : a.le b = true) (h2 : b.le c = true) :
    a.le c = true := by
  cases a <;> cases b <;> cases c <;> simp_all [JSNum.le]
  exact Dec10.le_chain h1 h2

theorem JSNum.jsMin_ne_nan {a x : JSNum} (ha : a ≠ .nan) (hx : x ≠ .nan) :
    a.jsMin x ≠ .nan := by
  rw [JSNum.jsMin, if_neg (not_or.mpr ⟨ha, hx⟩)]
  by_cases h : a.le x = true
  · rw [if_pos h]; exact ha
  · rw [if_neg h]; exact hx

theorem JSNum.jsMax_ne_nan {b x : JSNum} (hb : b ≠ .nan) (hx : x ≠ .nan) :
    b.jsMax x ≠ .nan := by
  rw [JSNum.jsMax, if_neg (not_or.mpr ⟨hb, hx⟩)]
  by_cases h : b.le x = true
  · rw [if_pos h]; exact hx
  · rw [if_neg h]; exact hb

theorem JSNum.jsMin_le_right {a x : JSNum} (ha : a ≠ .nan) (hx : x ≠ .nan) :
    (a.jsMin x).le x = true := by
  rw [JSNum.jsMin, if_neg (not_or.mpr ⟨ha, hx⟩)]
  by_cases h : a.le x = true
  · rw [if_pos h]; exact h
  · rw [if_neg h]; exact JSNum.le_self_nonnan hx

theorem JSNum.le_jsMax_right {b x : JSNum} (hb : b ≠ .nan) (hx : x ≠ .nan) :
    x.le (b.jsMax x) = true := by
  rw [JSNum.jsMax, if_neg (not_or.mpr ⟨hb, hx⟩)]
  by_cases h : b.le x = true
  · rw [if_pos h]; exact JSNum.le_self_nonnan hx
  · rw [if_neg h]
    rcases JSNum.le_total_nonnan hx hb with h2 | h2
    · exact h2
    · exact absurd h2 h

/-- One axis of a bounding-box update with a non-NaN component: the new
min and max stay non-NaN and are correctly ordered. -/
theorem axis_update {a b x : JSNum} (ha : a ≠ .nan) (hb : b ≠ .nan) (hx : x ≠ .nan) :
    a.jsMin x ≠ .nan ∧ b.jsMax x ≠ .nan ∧ (a.jsMin x).le (b.jsMax x) = true :=
  ⟨JSNum.jsMin_ne_nan ha hx, JSNum.jsMax_ne_nan hb hx,
   JSNum.le_trans_bool (JSNum.jsMin_le_right ha hx) (JSNum.le_jsMax_right hb hx)⟩

/-- The bounding box of one parser step: updated by a `v `-line, left
alone by every other line. -/
theorem objStep_bb (d : ObjData) (l : String) :
    (objStep d l).boundingBox
      = if jsStartsWith l "v " then updateBB d.boundingBox (objTokens l)
        else d.boundingBox := by
  simp only [objStep]
  split_ifs <;> rfl

/-- The step preserves the bounding-box invariant: no NaN on any axis,
and min ≤ max once a vertex has been seen — provided every `v `-line
supplies three numeric components. -/
theorem objStep_bb_inv (d : ObjData) (l : String)
    (hgood : jsStartsWith l "v " = true → goodVertex (objTokens l) = true)
    (h1 : bbNoNan d.boundingBox = true)
    (h2 : d.vertices ≠ [] → bbLe d.boundingBox = true) :
    bbNoNan (objStep d l).boundingBox = true
    ∧ ((objStep d l).vertices ≠ [] → bbLe (objStep d l).boundingBox = true) := by
  rcases hv : jsStartsWith l "v " with _ | _
  · rw [objStep_bb, if_neg (by simp [hv]), objStep_vertices, if_neg (by simp [hv])]
    exact ⟨h1, h2⟩
  · rw [objStep_bb, if_pos hv, objStep_vertices, if_pos hv]
    simp only [bbNoNan, bbLe, Bool.and_eq_true, bne_iff_ne, ne_eq] at h1 ⊢
    have hg := hgood hv
    simp only [goodVertex, Bool.and_eq_true, bne_iff_ne, ne_eq] at hg
    obtain ⟨⟨⟨⟨⟨hm1, hm2⟩, hm3⟩, hM1⟩, hM2⟩, hM3⟩ := h1
    obtain ⟨⟨hg1, hg2⟩, hg3⟩ := hg
    have hX := axis_update hm1 hM1 hg1
    have hY := axis_update hm2 hM2 hg2
    have hZ := axis_update hm3 hM3 hg3
    refine ⟨⟨⟨⟨⟨⟨?_, ?_⟩, ?_⟩, ?_⟩, ?_⟩, ?_⟩, fun _ => ⟨⟨?_, ?_⟩, ?_⟩⟩
    · exact hX.1
    · exact hY.1
    · exact hZ.1
    · exact hX.2.1
    · exact hY.2.1
    · exact hZ.2.1
    · exact hX.2.2
    · exact hY.2.2
    · exact hZ.2.2

/-- The fold preserves the bounding-box invariant over any line list
whose `v `-lines all supply three numeric components. -/
theorem foldl_objStep_bb (lines : List String) (d : ObjData)
    (hlines : ∀ l ∈ lines, jsStartsWith l "v " = true → goodVertex (objTokens l) = true)
    (h1 : bbNoNan d.boundingBox = true)
    (h2 : d.vertices ≠ [] → bbLe d.boundingBox = true) :
    bbNoNan (List.foldl objStep d lines).boundingBox = true
    ∧ ((List.foldl objStep d lines).vertices ≠ []
        → bbLe (List.foldl objStep d lines).boundingBox = true) := by
  induction lines generalizing d with
  | nil => exact ⟨h1, h2⟩
  | cons l ls ih =>
    rw [List.foldl_cons]
    have hstep := objStep_bb_inv d l (hlines l (by simp)) h1 h2
    exact ih _ (fun x hx => hlines x (by simp [hx])) hstep.1 hstep.2

/-- C4, counterexample: on the input `"v a b c"` — which contains a
vertex line, so the extractor records a vertex — the malformed
components come out as NaN, and `min.x <= max.x` is false, refuting the
claim as stated. -/
theorem objExtract_bbox_nan_counterexample :
    (objExtract "v a b c").vertices ≠ []
    ∧ bbLe (objExtract "v a b c").boundingBox = false := by
  decide

/-- C4 (amended): for every OBJ input containing at least one vertex
line, provided each vertex line carries at least three components that
each parse to a number (no NaN from malformed or missing tokens), the
computed bounding box satisfies `min[i] <= max[i]` on every axis. -/
theorem objExtract_bbox_min_le_max (c : String)
    (hgood : ∀ l ∈ jsSplit c '\n',
      jsStartsWith l "v " = true → goodVertex (objTokens l) = true)
    (hne : (objExtract c).vertices ≠ []) :
    bbLe (objExtract c).boundingBox = true :=
  (foldl_objStep_bb (jsSplit c '\n') initObjData hgood (by decide)
      (fun h => absurd rfl h)).2 hne

/-- Witness for the amended C4 on a well-formed two-vertex input. -/
theorem objExtract_bbox_min_le_max_witness :
    bbLe (objExtract "v 0 0 0\nv 1 2 3.5\nf 1 2\n").boundingBox = true :=
  objExtract_bbox_min_le_max "v 0 0 0\nv 1 2 3.5\nf 1 2\n" (by decide) (by decide)

/-- A list starting with a given prefix list passes `startsWithList`. -/
theorem startsWithList_append (pre rest : List Char) :
    startsWithList (pre ++ rest) pre = true := by
  induction pre with
  | nil => cases rest <;> rfl
  | cons c cs ih => simp [startsWithList, ih]

/-- C10, counterexample: `getImagePath` on a found record whose bytes
live only in remote storage but which carries no stored `filePath`
answers the generic 500 (the `path.join` TypeError path), not the 404
`File not found on server.` the claim asserts for every remote-only
record. -/
theorem getImagePath_no_filePath_500 :
    getImagePath envNoDisk remoteImageStore imgRemoteId
      = .err 500 "An error occurred while retrieving the image path."
    ∧ getImagePath envNoDisk remoteImageStore imgRemoteId
        ≠ .err 404 "File not found on server." := by
  decide

/-- C10 (amended): for every found record carrying a stored `filePath`,
the path-only variant treats it as locally stored: it consults only
local-disk existence at the resolved path, answers 404
`File not found on server.` when nothing is there (in particular for
records whose bytes live only in remote storage), and on success builds
the public URL as `/uploads/` plus the basename of `filePath` — never
the remote object URL.  A found record with no stored `filePath` is
answered with the generic 500 instead. -/
theorem getImagePath_local_only (env : Env) (store : StoreOf ImageRecord)
    (id : String) (img : ImageRecord)
    (hfind : findById store id = .ok (some img)) :
    (img.filePath = none →
      getImagePath env store id
        = .err 500 "An error occurred while retrieving the image path.")
    ∧ (∀ fp, img.filePath = some fp →
        env.fsExists (pathJoin (pathJoin dirnameTag "..") fp) = false →
        getImagePath env store id = .err 404 "File not found on server.")
    ∧ (∀ fp, img.filePath = some fp →
        env.fsExists (pathJoin (pathJoin dirnameTag "..") fp) = true →
        getImagePath env store id
          = .ok fp ("/uploads/" ++ basename fp) img.fileName img.metadata
        ∧ jsStartsWith ("/uploads/" ++ basename fp) "/uploads/" = true) := by
  refine ⟨fun hfp => ?_, fun fp hfp hex => ?_, fun fp hfp hex => ⟨?_, ?_⟩⟩
  · simp [getImagePath, hfind, hfp]
  · simp [getImagePath, hfind, hfp, hex]
  · simp [getImagePath, hfind, hfp, hex]
  · rw [jsStartsWith]
    have : ("/uploads/" ++ basename fp).toList
        = "/uploads/".toList ++ (basename fp).toList := by
      simp [String.toList]
    rw [this]
    exact startsWithList_append _ _

/-- Witness for the amended C10: the S3-stored record with a `filePath`
and an empty local disk is answered with the 404. -/
theorem getImagePath_local_only_witness :
    getImagePath envNoDisk pathImageStore imgPathId
      = .err 404 "File not found on server." :=
  (getImagePath_local_only envNoDisk pathImageStore imgPathId pathOnlyImage
      (by decide)).2.1 "uploads/photo_2.png" rfl rfl

end ServerApi
